import Mathlib

/-!
Shallow embedding of the `projectt` web application (src/main.py, src/models.py):
a user/credential store, token-based session resolution, and the route handlers
for registration, login, logout, the offer page, the admin panel and the two
admin toggle operations.

The HTTP layer is modelled as pure functions from an optional raw token and a
store to an outcome; handlers that mutate the store return the new store
together with the outcome (a raised HTTPException is an `Except.error` with its
status code, and the store that accompanies it is the unchanged input store,
matching the fact that every raise in the source happens before any commit).
-/

/-- A user record: the `users` table of src/models.py
(`id` integer primary key, `username` unique string, `password` string,
`is_admin` boolean default false, `is_blocked` boolean default false). -/
structure User where
  id : Nat
  username : String
  password : String
  is_admin : Bool
  is_blocked : Bool
deriving Repr, DecidableEq

/-- The Credential Store: the persisted `users` table plus the next
server-assigned primary key. -/
structure Store where
  users : List User
  next_id : Nat
deriving Repr, DecidableEq

/-- The empty store the application starts from. -/
def Store.init : Store := ⟨[], 1⟩

/-- Modelled from the spec: src imports `auth.py`, which is not under src/.
Spec §4.2 describes tokens as opaque signed strings embedding a subject
username and an expiry, whose decoding fails when the signature is invalid,
the structure malformed, or the token expired.  We model the opaque token
space abstractly: a raw token either carries its embedded subject or is one
of the undecodable tokens. -/
inductive RawToken where
  | valid (sub : String)
  | invalid
deriving Repr, DecidableEq

/-- Modelled from the spec: `decode_token` of the missing `auth.py`
(spec §4.2 `decode`): yields the embedded subject, or fails (`JWTError`)
on an undecodable token. -/
def decode_token : RawToken → Option String
  | .valid s => some s
  | .invalid => none

/-- Modelled from the spec: `create_access_token` of the missing `auth.py`
(spec §4.2 `issue`): produces a token embedding the subject username. -/
def create_access_token (username : String) : RawToken :=
  .valid username

/-- Modelled from the spec: `hash_password` of the missing `auth.py`
(spec §4.1): a one-way transform whose output verifies against its input.
We model it as an injective encoding, which satisfies the two properties
of spec §8 (`verify(p, hash(p))` true, `verify(p, hash(q))` false for p ≠ q). -/
def hash_password (plaintext : String) : String :=
  plaintext

/-- Modelled from the spec: `verify_password` of the missing `auth.py`
(spec §4.1 `verify`): true iff the plaintext matches the origin of the hash. -/
def verify_password (plaintext stored : String) : Bool :=
  stored == hash_password plaintext

/-- `get_current_user` (src/main.py lines 33-49): required-mode session
resolution.  Missing token → 401; decode failure (`JWTError`) → 401;
no stored user with the decoded subject as username, or that user blocked
→ 403; otherwise the user. -/
def get_current_user (token : Option RawToken) (σ : Store) : Except Nat User :=
  match token with
  | none => .error 401
  | some t =>
    match decode_token t with
    | none => .error 401
    | some sub =>
      match σ.users.find? (fun u => u.username == sub) with
      | none => .error 403
      | some u => if u.is_blocked then .error 403 else .ok u

/-- `get_current_user_optional` (src/main.py lines 52-75): optional-mode
session resolution.  Returns `none` on a missing token, a decode failure,
a falsy (empty) decoded subject, an unknown subject, or a blocked user;
otherwise the user. -/
def get_current_user_optional (token : Option RawToken) (σ : Store) :
    Option User :=
  match token with
  | none => none
  | some t =>
    match decode_token t with
    | none => none
    | some sub =>
      if sub.isEmpty then none
      else
        match σ.users.find? (fun u => u.username == sub) with
        | none => none
        | some u => if u.is_blocked then none else some u

/-- A travel offer (static catalog entry). -/
structure Offer where
  id : Nat
  title : String
  description : String
  image : String
deriving Repr, DecidableEq

/-- The hardcoded `OFFERS` map (src/main.py lines 18-23), as a partial map
from id to offer. -/
def OFFERS : Nat → Option Offer
  | 1 => some ⟨1, "Париж", "Місто кохання", "paris.jpg"⟩
  | 2 => some ⟨2, "Токіо", "Технології та традиції", "tokyo.jpg"⟩
  | 3 => some ⟨3, "Нью-Йорк", "Місто можливостей", "newyork.jpg"⟩
  | 4 => some ⟨4, "Рим", "Історія на кожному кроці", "rome.jpg"⟩
  | _ => none

/-- Outcome of `GET /offer/{offer_id}`: redirect to /login when no user
resolves, the rendered page on a known id, or the unhandled `KeyError`
of the bare `OFFERS[offer_id]` indexing on an unknown id. -/
inductive OfferOutcome where
  | redirectLogin
  | page (offer : Offer) (user : User)
  | keyError
deriving Repr, DecidableEq

/-- `offer_page` (src/main.py lines 77-91): resolve the user in optional
mode; redirect to /login when none; otherwise index the offer map without
a guard. -/
def offer_page (offer_id : Nat) (token : Option RawToken) (σ : Store) :
    OfferOutcome :=
  match get_current_user_optional token σ with
  | none => .redirectLogin
  | some user =>
    match OFFERS offer_id with
    | none => .keyError
    | some offer => .page offer user

/-- `register` (src/main.py lines 113-125): create the user with
`is_admin` true exactly when the store is empty (`count == 0`), password
hashed, and `is_blocked` left at its column default `false`.  The handler
itself performs no duplicate check; on a duplicate username the UNIQUE
constraint of the `username` column (src/models.py line 8) makes the
commit raise an integrity error, which no handler catches and which
therefore surfaces as an unhandled server error (500) with nothing stored.
On success the new row gets the next primary key and the handler redirects
to /login. -/
def register (username password : String) (σ : Store) :
    Store × Except Nat String :=
  if σ.users.any (fun u => u.username == username) then
    (σ, .error 500)
  else
    (⟨σ.users ++
        [⟨σ.next_id, username, hash_password password,
          σ.users.isEmpty, false⟩],
      σ.next_id + 1⟩,
     .ok "/login")

/-- The response of a successful login (src/main.py lines 146-154):
the issued token attached as an http-only cookie named `token`, and a
redirect to the home page. -/
structure LoginResponse where
  token : RawToken
  cookie_name : String
  http_only : Bool
  redirect_to : String
deriving Repr, DecidableEq

/-- `login` (src/main.py lines 132-154): look up the username; 401 when
absent or the password does not verify; 403 when the user is blocked;
otherwise issue a token for the username, set it as the http-only `token`
cookie and redirect to `/`. -/
def login (username password : String) (σ : Store) :
    Except Nat LoginResponse :=
  match σ.users.find? (fun u => u.username == username) with
  | none => .error 401
  | some user =>
    if ¬ verify_password password user.password then .error 401
    else if user.is_blocked then .error 403
    else
      .ok ⟨create_access_token user.username, "token", true, "/"⟩

/-- The response of `GET /logout`: the deleted cookie and the redirect. -/
structure LogoutResponse where
  deleted_cookie : String
  redirect_to : String
deriving Repr, DecidableEq

/-- `logout` (src/main.py lines 157-161): delete the `token` cookie and
redirect to `/`.  The handler takes no database session and performs no
store access at all, so the store passes through untouched. -/
def logout (σ : Store) : Store × LogoutResponse :=
  (σ, ⟨"token", "/"⟩)

/-- `admin_panel` (src/main.py lines 163-181): required-mode resolution,
then 403 unless the resolved user is an admin; on success the full user
list is rendered.  The handler only reads the store. -/
def admin_panel (token : Option RawToken) (σ : Store) :
    Except Nat (List User) :=
  match get_current_user token σ with
  | .error e => .error e
  | .ok admin =>
    if ¬ admin.is_admin then .error 403
    else .ok σ.users

/-- Update the first element satisfying `p` by `f`, leaving the rest
unchanged: the effect of mutating the single ORM object returned by
`.first()` / `.get()` and committing. -/
def updateFirst (p : User → Bool) (f : User → User) : List User → List User
  | [] => []
  | u :: us => if p u then f u :: us else u :: updateFirst p f us

/-- `block_user` (src/main.py lines 185-204): required-mode resolution,
admin gate (403), target lookup by id (404 when absent), self-action
guard (400 when the target id is the acting admin's id), then flip the
target's `is_blocked` and commit, redirecting to /admin.  Every raise
happens before the commit, so the store is unchanged on every error. -/
def block_user (token : Option RawToken) (user_id : Nat) (σ : Store) :
    Store × Except Nat String :=
  match get_current_user token σ with
  | .error e => (σ, .error e)
  | .ok admin =>
    if ¬ admin.is_admin then (σ, .error 403)
    else
      match σ.users.find? (fun u => u.id == user_id) with
      | none => (σ, .error 404)
      | some user =>
        if user.id == admin.id then (σ, .error 400)
        else
          (⟨updateFirst (fun u => u.id == user_id)
              (fun u => { u with is_blocked := !u.is_blocked }) σ.users,
            σ.next_id⟩,
           .ok "/admin")

/-- `toggle_admin_cookie` (src/main.py lines 206-221): required-mode
resolution, admin gate (403), target lookup by primary key (404 when
absent), self-action guard (400), then flip the target's `is_admin` and
commit, redirecting to /admin. -/
def toggle_admin_cookie (token : Option RawToken) (user_id : Nat)
    (σ : Store) : Store × Except Nat String :=
  match get_current_user token σ with
  | .error e => (σ, .error e)
  | .ok current_user =>
    if ¬ current_user.is_admin then (σ, .error 403)
    else
      match σ.users.find? (fun u => u.id == user_id) with
      | none => (σ, .error 404)
      | some user =>
        if user.id == current_user.id then (σ, .error 400)
        else
          (⟨updateFirst (fun u => u.id == user_id)
              (fun u => { u with is_admin := !u.is_admin }) σ.users,
            σ.next_id⟩,
           .ok "/admin")

/-- A sequence of registration requests applied to the initially empty
store, ignoring the responses (each request carries a username and a
password). -/
def runRegs (reqs : List (String × String)) : Store :=
  reqs.foldl (fun σ r => (register r.1 r.2 σ).1) Store.init

/-! ## Helper lemmas about `updateFirst` and `find?` -/

theorem updateFirst_length (p : User → Bool) (f : User → User) (l : List User) :
    (updateFirst p f l).length = l.length := by
  induction l with
  | nil => rfl
  | cons a l ih => cases h : p a <;> simp [updateFirst, h, ih]

theorem find?_updateFirst_self (p : User → Bool) (f : User → User)
    (hp : ∀ u, p (f u) = p u) :
    ∀ (l : List User) (u : User), l.find? p = some u →
      (updateFirst p f l).find? p = some (f u) := by
  intro l
  induction l with
  | nil => intro u h; simp at h
  | cons a l ih =>
    intro u h
    cases hpa : p a with
    | true =>
      rw [List.find?_cons_of_pos l hpa, Option.some_inj] at h
      subst h
      simp only [updateFirst, hpa, if_true]
      rw [List.find?_cons_of_pos _ ((hp a).trans hpa)]
    | false =>
      rw [List.find?_cons_of_neg l (by simp [hpa])] at h
      simp only [updateFirst, hpa, Bool.false_eq_true, if_false]
      rw [List.find?_cons_of_neg _ (by simp [hpa])]
      exact ih u h

theorem find?_updateFirst_stable (p q : User → Bool) (f : User → User)
    (hq : ∀ u, q (f u) = q u) :
    ∀ (l : List User) (A : User), l.find? q = some A → p A = false →
      (updateFirst p f l).find? q = some A := by
  intro l
  induction l with
  | nil => intro A h _; simp at h
  | cons a l ih =>
    intro A h hpA
    cases hqa : q a with
    | true =>
      rw [List.find?_cons_of_pos l hqa, Option.some_inj] at h
      subst h
      simp only [updateFirst, hpA, Bool.false_eq_true, if_false]
      rw [List.find?_cons_of_pos _ hqa]
    | false =>
      rw [List.find?_cons_of_neg l (by simp [hqa])] at h
      cases hpa : p a with
      | true =>
        simp only [updateFirst, hpa, if_true]
        rw [List.find?_cons_of_neg _ (by simp [hq a, hqa])]
        exact h
      | false =>
        simp only [updateFirst, hpa, Bool.false_eq_true, if_false]
        rw [List.find?_cons_of_neg _ (by simp [hqa])]
        exact ih A h hpA

theorem updateFirst_updateFirst (p : User → Bool) (f : User → User)
    (hp : ∀ u, p (f u) = p u) (hf : ∀ u, f (f u) = u) :
    ∀ l : List User, updateFirst p f (updateFirst p f l) = l := by
  intro l
  induction l with
  | nil => rfl
  | cons a l ih =>
    cases hpa : p a with
    | true => simp [updateFirst, hpa, (hp a).trans hpa, hf a]
    | false => simp [updateFirst, hpa, ih]

theorem updateFirst_frame (p : User → Bool) (f : User → User) :
    ∀ (l : List User) (u : User), l.find? p = some u →
      ∃ k, ∃ hk : k < l.length, ∃ hk' : k < (updateFirst p f l).length,
        l.get ⟨k, hk⟩ = u ∧ (updateFirst p f l).get ⟨k, hk'⟩ = f u ∧
        ∀ j (hj : j < l.length) (hj' : j < (updateFirst p f l).length),
          j ≠ k → (updateFirst p f l).get ⟨j, hj'⟩ = l.get ⟨j, hj⟩ := by
  intro l
  induction l with
  | nil => intro u h; simp at h
  | cons a l ih =>
    intro u h
    cases hpa : p a with
    | true =>
      rw [List.find?_cons_of_pos l hpa, Option.some_inj] at h
      subst h
      have hu : updateFirst p f (a :: l) = f a :: l := by
        simp [updateFirst, hpa]
      rw [hu]
      refine ⟨0, Nat.succ_pos _, Nat.succ_pos _, rfl, rfl, ?_⟩
      intro j hj hj' hne
      cases j with
      | zero => exact absurd rfl hne
      | succ j => rfl
    | false =>
      rw [List.find?_cons_of_neg l (by simp [hpa])] at h
      obtain ⟨k, hk, hk', hget, hget', hframe⟩ := ih u h
      have hu : updateFirst p f (a :: l) = a :: updateFirst p f l := by
        simp [updateFirst, hpa]
      rw [hu]
      refine ⟨k + 1, Nat.succ_lt_succ hk, Nat.succ_lt_succ hk', hget, hget', ?_⟩
      intro j hj hj' hne
      cases j with
      | zero => rfl
      | succ j =>
        exact hframe j (Nat.lt_of_succ_lt_succ hj)
          (Nat.lt_of_succ_lt_succ hj') (fun hh => hne (by rw [hh]))

/-! ## Inversion and construction lemmas for the session resolver -/

theorem get_current_user_inv (token : Option RawToken) (σ : Store) (A : User)
    (h : get_current_user token σ = .ok A) :
    ∃ t sub, token = some t ∧ decode_token t = some sub ∧
      σ.users.find? (fun u => u.username == sub) = some A ∧
      A.is_blocked = false := by
  cases token with
  | none => simp [get_current_user] at h
  | some t =>
    cases hd : decode_token t with
    | none => simp [get_current_user, hd] at h
    | some sub =>
      cases hf : σ.users.find? (fun u => u.username == sub) with
      | none => simp [get_current_user, hd, hf] at h
      | some u =>
        cases hb : u.is_blocked with
        | true => simp [get_current_user, hd, hf, hb] at h
        | false =>
          simp only [get_current_user, hd, hf, hb, Bool.false_eq_true,
            if_false] at h
          cases h
          exact ⟨t, sub, rfl, hd, hf, hb⟩

theorem get_current_user_eq_ok (t : RawToken) (sub : String) (σ : Store)
    (A : User) (hd : decode_token t = some sub)
    (hf : σ.users.find? (fun u => u.username == sub) = some A)
    (hb : A.is_blocked = false) :
    get_current_user (some t) σ = .ok A := by
  simp [get_current_user, hd, hf, hb]

/-! ## Claim theorems -/

/-- C2: required-mode resolution fails 401 when no token is present or
decoding fails, fails 403 when the decoded subject matches no stored user
or the matched user is blocked, and otherwise returns that user. -/
theorem get_current_user_spec (token : Option RawToken) (σ : Store) :
    (token = none → get_current_user token σ = .error 401) ∧
    (∀ t, token = some t → decode_token t = none →
      get_current_user token σ = .error 401) ∧
    (∀ t sub, token = some t → decode_token t = some sub →
      σ.users.find? (fun u => u.username == sub) = none →
      get_current_user token σ = .error 403) ∧
    (∀ t sub u, token = some t → decode_token t = some sub →
      σ.users.find? (fun u => u.username == sub) = some u →
      u.is_blocked = true → get_current_user token σ = .error 403) ∧
    (∀ t sub u, token = some t → decode_token t = some sub →
      σ.users.find? (fun u => u.username == sub) = some u →
      u.is_blocked = false → get_current_user token σ = .ok u) := by
  refine ⟨?_, ?_, ?_, ?_, ?_⟩
  · intro h; subst h; rfl
  · intro t ht hd; subst ht; simp [get_current_user, hd]
  · intro t sub ht hd hf; subst ht; simp [get_current_user, hd, hf]
  · intro t sub u ht hd hf hb; subst ht; simp [get_current_user, hd, hf, hb]
  · intro t sub u ht hd hf hb; subst ht; simp [get_current_user, hd, hf, hb]

/-- Witness for C2 at a concrete input: a token whose subject names a
stored, unblocked user resolves to that user. -/
theorem get_current_user_spec_witness :
    get_current_user (some (RawToken.valid "alice"))
        ⟨[⟨1, "alice", "pw", true, false⟩], 2⟩ =
      .ok ⟨1, "alice", "pw", true, false⟩ :=
  (get_current_user_spec (some (RawToken.valid "alice"))
      ⟨[⟨1, "alice", "pw", true, false⟩], 2⟩).2.2.2.2
    (RawToken.valid "alice") "alice" ⟨1, "alice", "pw", true, false⟩
    rfl rfl (by decide) rfl

/-- C3: a registration whose username equals the username of an
already-stored user is rejected — the operation fails (the UNIQUE
constraint on the username column aborts the commit) and the store is
unchanged, so no second user with that username is ever stored. -/
theorem register_duplicate_rejected (username password : String) (σ : Store)
    (h : ∃ v ∈ σ.users, v.username = username) :
    register username password σ = (σ, .error 500) := by
  obtain ⟨v, hv, hname⟩ := h
  have hany : σ.users.any (fun u => u.username == username) = true :=
    List.any_eq_true.mpr ⟨v, hv, by simp [hname]⟩
  simp [register, hany]

/-- Witness for C3: registering `bob` twice fails the second time with the
store unchanged. -/
theorem register_duplicate_rejected_witness :
    register "bob" "pw2" ⟨[⟨1, "bob", "pw", true, false⟩], 2⟩ =
      (⟨[⟨1, "bob", "pw", true, false⟩], 2⟩, .error 500) :=
  register_duplicate_rejected "bob" "pw2" ⟨[⟨1, "bob", "pw", true, false⟩], 2⟩
    ⟨⟨1, "bob", "pw", true, false⟩, by decide, rfl⟩

/-- C5: login fails 401 when the username matches no stored user or the
password does not verify; otherwise fails 403 when the matched user is
blocked (in particular every login of a blocked user with correct
credentials fails 403); otherwise issues a token for the username and
attaches it as an http-only cookie named `token`, redirecting to `/`. -/
theorem login_spec (username password : String) (σ : Store) :
    (σ.users.find? (fun u => u.username == username) = none →
      login username password σ = .error 401) ∧
    (∀ u, σ.users.find? (fun u => u.username == username) = some u →
      verify_password password u.password = false →
      login username password σ = .error 401) ∧
    (∀ u, σ.users.find? (fun u => u.username == username) = some u →
      verify_password password u.password = true → u.is_blocked = true →
      login username password σ = .error 403) ∧
    (∀ u, σ.users.find? (fun u => u.username == username) = some u →
      verify_password password u.password = true → u.is_blocked = false →
      login username password σ =
        .ok ⟨create_access_token u.username, "token", true, "/"⟩) := by
  refine ⟨?_, ?_, ?_, ?_⟩
  · intro hf; simp [login, hf]
  · intro u hf hv; simp [login, hf, hv]
  · intro u hf hv hb; simp [login, hf, hv, hb]
  · intro u hf hv hb; simp [login, hf, hv, hb]

/-- Witness for C5 at a concrete input: a blocked user with correct
credentials gets 403. -/
theorem login_spec_witness :
    login "bob" "pw" ⟨[⟨1, "bob", "pw", false, true⟩], 2⟩ = .error 403 :=
  (login_spec "bob" "pw" ⟨[⟨1, "bob", "pw", false, true⟩], 2⟩).2.2.1
    ⟨1, "bob", "pw", false, true⟩ (by decide) (by decide) rfl

/-- C9: logout performs no server-side state change — the store is
returned untouched — while the `token` cookie is deleted and the response
redirects home. -/
theorem logout_no_state_change (σ : Store) :
    (logout σ).1 = σ ∧ (logout σ).2.deleted_cookie = "token" ∧
    (logout σ).2.redirect_to = "/" :=
  ⟨rfl, rfl, rfl⟩

/-- C6 counterexample: the claim states that optional-mode resolution
returns the matched user whenever a token is present, decodes, and its
subject matches an unblocked stored user.  With a stored user whose
username is the empty string and a token whose subject is that empty
string, the subject decodes and matches the unblocked stored user, yet
`get_current_user_optional` returns no user: the handler's falsy-subject
check (src/main.py line 64, `if not username: return None`) fires first. -/
theorem get_current_user_optional_empty_subject_cex :
    decode_token (RawToken.valid "") = some "" ∧
    (Store.mk [⟨1, "", "pw", true, false⟩] 2).users.find?
        (fun u => u.username == "") = some ⟨1, "", "pw", true, false⟩ ∧
    (User.mk 1 "" "pw" true false).is_blocked = false ∧
    get_current_user_optional (some (RawToken.valid ""))
        (Store.mk [⟨1, "", "pw", true, false⟩] 2) = none := by
  refine ⟨rfl, by decide, rfl, rfl⟩

/-- C6 amended: optional-mode resolution never fails; it returns no user
for every failure case — missing token, decode error, empty (falsy)
decoded subject, subject matching no stored user, or matched user blocked
— and returns the matched user when the decoded subject is nonempty and
matches an unblocked stored user.  In particular a blocked user's valid
token resolves to no user. -/
theorem get_current_user_optional_spec (token : Option RawToken) (σ : Store) :
    (token = none → get_current_user_optional token σ = none) ∧
    (∀ t, token = some t → decode_token t = none →
      get_current_user_optional token σ = none) ∧
    (∀ t sub, token = some t → decode_token t = some sub →
      sub.isEmpty = true → get_current_user_optional token σ = none) ∧
    (∀ t sub, token = some t → decode_token t = some sub →
      sub.isEmpty = false →
      σ.users.find? (fun u => u.username == sub) = none →
      get_current_user_optional token σ = none) ∧
    (∀ t sub u, token = some t → decode_token t = some sub →
      sub.isEmpty = false →
      σ.users.find? (fun u => u.username == sub) = some u →
      u.is_blocked = true → get_current_user_optional token σ = none) ∧
    (∀ t sub u, token = some t → decode_token t = some sub →
      sub.isEmpty = false →
      σ.users.find? (fun u => u.username == sub) = some u →
      u.is_blocked = false → get_current_user_optional token σ = some u) := by
  refine ⟨?_, ?_, ?_, ?_, ?_, ?_⟩
  · intro h; subst h; rfl
  · intro t ht hd; subst ht; simp [get_current_user_optional, hd]
  · intro t sub ht hd he; subst ht
    simp [get_current_user_optional, hd, he]
  · intro t sub ht hd he hf; subst ht
    simp [get_current_user_optional, hd, he, hf]
  · intro t sub u ht hd he hf hb; subst ht
    simp [get_current_user_optional, hd, he, hf, hb]
  · intro t sub u ht hd he hf hb; subst ht
    simp [get_current_user_optional, hd, he, hf, hb]

/-- Witness for the amended C6 at a concrete input: a blocked user's valid
token resolves to no user in optional mode. -/
theorem get_current_user_optional_spec_witness :
    get_current_user_optional (some (RawToken.valid "carol"))
        ⟨[⟨1, "carol", "pw", false, true⟩], 2⟩ = none :=
  (get_current_user_optional_spec (some (RawToken.valid "carol"))
      ⟨[⟨1, "carol", "pw", false, true⟩], 2⟩).2.2.2.2.1
    (RawToken.valid "carol") "carol" ⟨1, "carol", "pw", false, true⟩
    rfl rfl rfl (by decide) rfl

/-- C7: the offer page redirects to /login whenever no user resolves in
optional mode (for every offer id, known or not, so the offer map is
never consulted); when a user resolves it renders the page for an id in
the map and hits the unhandled `KeyError` of the bare map indexing for an
id not in the map — and that error branch is reachable. -/
theorem offer_page_spec (offer_id : Nat) (token : Option RawToken)
    (σ : Store) :
    (get_current_user_optional token σ = none →
      offer_page offer_id token σ = .redirectLogin) ∧
    (∀ u, get_current_user_optional token σ = some u →
      (∀ o, OFFERS offer_id = some o →
        offer_page offer_id token σ = .page o u) ∧
      (OFFERS offer_id = none →
        offer_page offer_id token σ = .keyError)) ∧
    (∃ i t2 σ2, offer_page i t2 σ2 = OfferOutcome.keyError) := by
  refine ⟨?_, ?_,
    ⟨5, some (RawToken.valid "dave"),
      ⟨[⟨1, "dave", "pw", false, false⟩], 2⟩, by decide⟩⟩
  · intro h; simp [offer_page, h]
  · intro u hu
    exact ⟨fun o ho => by simp [offer_page, hu, ho],
      fun ho => by simp [offer_page, hu, ho]⟩

/-- Witness for C7 at concrete inputs: without a token the page redirects
to /login even for an id outside the offer map. -/
theorem offer_page_spec_witness :
    offer_page 99 none Store.init = OfferOutcome.redirectLogin :=
  (offer_page_spec 99 none Store.init).1 rfl

/-- C8: on each admin-only operation (admin panel, block toggle,
admin-rights toggle), once required-mode resolution succeeds the
operation fails with 403 unless the resolved user is an admin, and the
two mutating operations leave the store unchanged for a non-admin
caller (the panel only ever reads). -/
theorem admin_gate_spec (token : Option RawToken) (σ : Store) :
    ∀ a, get_current_user token σ = .ok a → a.is_admin = false →
      admin_panel token σ = .error 403 ∧
      ∀ uid, block_user token uid σ = (σ, .error 403) ∧
        toggle_admin_cookie token uid σ = (σ, .error 403) := by
  intro a hg ha
  refine ⟨by simp [admin_panel, hg, ha], fun uid =>
    ⟨by simp [block_user, hg, ha], by simp [toggle_admin_cookie, hg, ha]⟩⟩

/-- Witness for C8 at a concrete input: a resolved non-admin gets 403 from
the panel and from both toggles, with the store unchanged. -/
theorem admin_gate_spec_witness :
    admin_panel (some (RawToken.valid "eve"))
        ⟨[⟨1, "eve", "pw", false, false⟩], 2⟩ = .error 403 ∧
    block_user (some (RawToken.valid "eve")) 1
        ⟨[⟨1, "eve", "pw", false, false⟩], 2⟩ =
      (⟨[⟨1, "eve", "pw", false, false⟩], 2⟩, .error 403) ∧
    toggle_admin_cookie (some (RawToken.valid "eve")) 1
        ⟨[⟨1, "eve", "pw", false, false⟩], 2⟩ =
      (⟨[⟨1, "eve", "pw", false, false⟩], 2⟩, .error 403) :=
  ⟨(admin_gate_spec (some (RawToken.valid "eve"))
      ⟨[⟨1, "eve", "pw", false, false⟩], 2⟩
      ⟨1, "eve", "pw", false, false⟩ rfl rfl).1,
   ((admin_gate_spec (some (RawToken.valid "eve"))
      ⟨[⟨1, "eve", "pw", false, false⟩], 2⟩
      ⟨1, "eve", "pw", false, false⟩ rfl rfl).2 1).1,
   ((admin_gate_spec (some (RawToken.valid "eve"))
      ⟨[⟨1, "eve", "pw", false, false⟩], 2⟩
      ⟨1, "eve", "pw", false, false⟩ rfl rfl).2 1).2⟩

/-- C4: an authenticated admin targeting their own id fails with 400 on
both the block toggle and the admin-rights toggle, and the store — every
record and flag — is unchanged. -/
theorem self_action_guard (token : Option RawToken) (σ : Store) (a : User)
    (hg : get_current_user token σ = .ok a) (ha : a.is_admin = true) :
    block_user token a.id σ = (σ, .error 400) ∧
    toggle_admin_cookie token a.id σ = (σ, .error 400) := by
  obtain ⟨t, sub, ht, hd, hf, hb⟩ := get_current_user_inv token σ a hg
  have hmem : a ∈ σ.users := List.mem_of_find?_eq_some hf
  have hsome : (σ.users.find? (fun u => u.id == a.id)).isSome :=
    List.find?_isSome.mpr ⟨a, hmem, by simp⟩
  obtain ⟨u, hu⟩ := Option.isSome_iff_exists.mp hsome
  have hpu : (u.id == a.id) = true := by
    simpa using List.find?_some hu
  constructor
  · simp [block_user, hg, ha, hu, hpu]
  · simp [toggle_admin_cookie, hg, ha, hu, hpu]

/-- Witness for C4 at a concrete input: the sole admin targeting their own
id gets 400 from both toggles with the store unchanged. -/
theorem self_action_guard_witness :
    block_user (some (RawToken.valid "root")) 1
        ⟨[⟨1, "root", "pw", true, false⟩], 2⟩ =
      (⟨[⟨1, "root", "pw", true, false⟩], 2⟩, .error 400) ∧
    toggle_admin_cookie (some (RawToken.valid "root")) 1
        ⟨[⟨1, "root", "pw", true, false⟩], 2⟩ =
      (⟨[⟨1, "root", "pw", true, false⟩], 2⟩, .error 400) :=
  self_action_guard (some (RawToken.valid "root"))
    ⟨[⟨1, "root", "pw", true, false⟩], 2⟩
    ⟨1, "root", "pw", true, false⟩ rfl rfl

/-- One registration step preserves the bootstrap-admin shape of the
store: the user at position 0 is the admin, everyone later is not, and
nobody is blocked. -/
theorem register_step_good (username password : String) (σ : Store)
    (h : ∀ i (hi : i < σ.users.length),
      σ.users[i].is_admin = decide (i = 0) ∧ σ.users[i].is_blocked = false) :
    ∀ i (hi : i < ((register username password σ).1).users.length),
      ((register username password σ).1).users[i].is_admin = decide (i = 0) ∧
      ((register username password σ).1).users[i].is_blocked = false := by
  cases hdup : σ.users.any (fun u => u.username == username) with
  | true => simpa [register, hdup] using h
  | false =>
    intro i hi
    simp only [register, hdup, Bool.false_eq_true, if_false] at hi ⊢
    rcases Nat.lt_or_ge i σ.users.length with hlt | hge
    · rw [List.getElem_append_left hlt]
      exact h i hlt
    · have hlen : i < σ.users.length + 1 := by simpa using hi
      have hieq : i = σ.users.length := Nat.le_antisymm
        (Nat.lt_succ_iff.mp hlen) hge
      subst hieq
      rw [List.getElem_append_right hge]
      simp only [Nat.sub_self, List.getElem_cons_zero]
      exact ⟨by cases σ.users <;> simp, by trivial⟩

/-- C1: along every sequence of registrations from the empty store, the
first account ever registered is stored with `is_admin = true`, every
account registered while the store was non-empty is stored with
`is_admin = false`, and every stored account has `is_blocked = false`. -/
theorem register_bootstrap_admin (reqs : List (String × String)) :
    ∀ i (hi : i < (runRegs reqs).users.length),
      (runRegs reqs).users[i].is_admin = decide (i = 0) ∧
      (runRegs reqs).users[i].is_blocked = false := by
  have main : ∀ (rs : List (String × String)) (σ : Store),
      (∀ i (hi : i < σ.users.length),
        σ.users[i].is_admin = decide (i = 0) ∧
        σ.users[i].is_blocked = false) →
      ∀ i (hi : i <
          (rs.foldl (fun σ r => (register r.1 r.2 σ).1) σ).users.length),
        (rs.foldl (fun σ r => (register r.1 r.2 σ).1) σ).users[i].is_admin =
          decide (i = 0) ∧
        (rs.foldl (fun σ r => (register r.1 r.2 σ).1) σ).users[i].is_blocked =
          false := by
    intro rs
    induction rs with
    | nil => intro σ h; exact h
    | cons r rs ih =>
      intro σ h
      exact ih ((register r.1 r.2 σ).1) (register_step_good r.1 r.2 σ h)
  exact main reqs Store.init (by intro i hi; simp [Store.init] at hi)

/-- Witness for C1 at a concrete trace: after registering alice then bob,
alice (position 0) is an admin and bob (position 1) is not, neither
blocked. -/
theorem register_bootstrap_admin_witness :
    ((runRegs [("alice", "a"), ("bob", "b")]).users.get
        ⟨0, by decide⟩).is_admin = decide ((0 : Nat) = 0) ∧
      ((runRegs [("alice", "a"), ("bob", "b")]).users.get
        ⟨0, by decide⟩).is_blocked = false :=
  register_bootstrap_admin [("alice", "a"), ("bob", "b")] 0 (by decide)

/-- Inversion of a successful block toggle: the caller resolved to an
admin, the target was found by id, it was not the caller, the redirect is
/admin, and the new store is the old one with the target's `is_blocked`
flipped. -/
theorem block_user_inv (token : Option RawToken) (uid : Nat) (σ σ' : Store)
    (r : String) (h : block_user token uid σ = (σ', .ok r)) :
    ∃ A U, get_current_user token σ = .ok A ∧ A.is_admin = true ∧
      σ.users.find? (fun u => u.id == uid) = some U ∧
      (U.id == A.id) = false ∧ r = "/admin" ∧
      σ' = ⟨updateFirst (fun u => u.id == uid)
              (fun u => { u with is_blocked := !u.is_blocked }) σ.users,
            σ.next_id⟩ := by
  cases hg : get_current_user token σ with
  | error e => simp [block_user, hg] at h
  | ok A =>
    cases ha : A.is_admin with
    | false => simp [block_user, hg, ha] at h
    | true =>
      cases hf : σ.users.find? (fun u => u.id == uid) with
      | none => simp [block_user, hg, ha, hf] at h
      | some U =>
        cases hs : U.id == A.id with
        | true => simp [block_user, hg, ha, hf, hs] at h
        | false =>
          have hred : block_user token uid σ =
              (⟨updateFirst (fun u => u.id == uid)
                  (fun u => { u with is_blocked := !u.is_blocked }) σ.users,
                σ.next_id⟩, .ok "/admin") := by
            simp [block_user, hg, ha, hf, hs]
          rw [hred] at h
          refine ⟨A, U, rfl, ha, rfl, hs, ?_, ?_⟩
          · exact (Except.ok.inj (congrArg Prod.snd h)).symm
          · exact (congrArg Prod.fst h).symm

/-- Inversion of a successful admin-rights toggle, symmetric to
`block_user_inv`. -/
theorem toggle_admin_cookie_inv (token : Option RawToken) (uid : Nat)
    (σ σ' : Store) (r : String)
    (h : toggle_admin_cookie token uid σ = (σ', .ok r)) :
    ∃ A U, get_current_user token σ = .ok A ∧ A.is_admin = true ∧
      σ.users.find? (fun u => u.id == uid) = some U ∧
      (U.id == A.id) = false ∧ r = "/admin" ∧
      σ' = ⟨updateFirst (fun u => u.id == uid)
              (fun u => { u with is_admin := !u.is_admin }) σ.users,
            σ.next_id⟩ := by
  cases hg : get_current_user token σ with
  | error e => simp [toggle_admin_cookie, hg] at h
  | ok A =>
    cases ha : A.is_admin with
    | false => simp [toggle_admin_cookie, hg, ha] at h
    | true =>
      cases hf : σ.users.find? (fun u => u.id == uid) with
      | none => simp [toggle_admin_cookie, hg, ha, hf] at h
      | some U =>
        cases hs : U.id == A.id with
        | true => simp [toggle_admin_cookie, hg, ha, hf, hs] at h
        | false =>
          have hred : toggle_admin_cookie token uid σ =
              (⟨updateFirst (fun u => u.id == uid)
                  (fun u => { u with is_admin := !u.is_admin }) σ.users,
                σ.next_id⟩, .ok "/admin") := by
            simp [toggle_admin_cookie, hg, ha, hf, hs]
          rw [hred] at h
          refine ⟨A, U, rfl, ha, rfl, hs, ?_, ?_⟩
          · exact (Except.ok.inj (congrArg Prod.snd h)).symm
          · exact (congrArg Prod.fst h).symm

/-- C10: a successful block toggle flips exactly the target's
`is_blocked` (position `k` holds the first stored user with the target
id; its record changes in no other field, and every other position is
untouched), and running the toggle again succeeds and restores the store
exactly; the same involution holds for `is_admin` under the admin-rights
toggle. -/
theorem toggle_involution (token : Option RawToken) (uid : Nat)
    (σ σ' : Store) (r : String) :
    (block_user token uid σ = (σ', .ok r) →
      (∃ k, ∃ hk : k < σ.users.length, ∃ hk' : k < σ'.users.length,
        (σ.users.get ⟨k, hk⟩).id = uid ∧
        σ'.users.get ⟨k, hk'⟩ =
          { σ.users.get ⟨k, hk⟩ with
            is_blocked := !(σ.users.get ⟨k, hk⟩).is_blocked } ∧
        ∀ j (hj : j < σ.users.length) (hj' : j < σ'.users.length),
          j ≠ k → σ'.users.get ⟨j, hj'⟩ = σ.users.get ⟨j, hj⟩) ∧
      block_user token uid σ' = (σ, .ok r)) ∧
    (toggle_admin_cookie token uid σ = (σ', .ok r) →
      (∃ k, ∃ hk : k < σ.users.length, ∃ hk' : k < σ'.users.length,
        (σ.users.get ⟨k, hk⟩).id = uid ∧
        σ'.users.get ⟨k, hk'⟩ =
          { σ.users.get ⟨k, hk⟩ with
            is_admin := !(σ.users.get ⟨k, hk⟩).is_admin } ∧
        ∀ j (hj : j < σ.users.length) (hj' : j < σ'.users.length),
          j ≠ k → σ'.users.get ⟨j, hj'⟩ = σ.users.get ⟨j, hj⟩) ∧
      toggle_admin_cookie token uid σ' = (σ, .ok r)) := by
  constructor
  · intro h
    obtain ⟨A, U, hg, ha, hf, hs, hr, hσ'⟩ :=
      block_user_inv token uid σ σ' r h
    subst hσ'
    subst hr
    have hUid : U.id = uid := by simpa using List.find?_some hf
    obtain ⟨k, hk, hk', hget, hget', hframe⟩ :=
      updateFirst_frame (fun u => u.id == uid)
        (fun u => { u with is_blocked := !u.is_blocked }) σ.users U hf
    refine ⟨⟨k, hk, hk', ?_, ?_, hframe⟩, ?_⟩
    · rw [hget]; exact hUid
    · rw [hget', hget]
    · obtain ⟨t, sub, ht, hd, hfind, hblocked⟩ :=
        get_current_user_inv token σ A hg
      subst ht
      have hA2 : (A.id == uid) = false := by
        have hAU : U.id ≠ A.id := by simpa using hs
        rw [beq_eq_false_iff_ne]
        intro hc
        exact hAU (by rw [hUid, hc])
      have hfind2 : (updateFirst (fun u => u.id == uid)
          (fun u => { u with is_blocked := !u.is_blocked }) σ.users).find?
            (fun u => u.username == sub) = some A :=
        find?_updateFirst_stable (fun u => u.id == uid)
          (fun u => u.username == sub)
          (fun u => { u with is_blocked := !u.is_blocked })
          (fun u => rfl) σ.users A hfind hA2
      have hg2 : get_current_user (some t)
          ⟨updateFirst (fun u => u.id == uid)
            (fun u => { u with is_blocked := !u.is_blocked }) σ.users,
           σ.next_id⟩ = .ok A :=
        get_current_user_eq_ok t sub _ A hd hfind2 hblocked
      have hfid2 : (updateFirst (fun u => u.id == uid)
          (fun u => { u with is_blocked := !u.is_blocked }) σ.users).find?
            (fun u => u.id == uid) =
          some { U with is_blocked := !U.is_blocked } :=
        find?_updateFirst_self (fun u => u.id == uid)
          (fun u => { u with is_blocked := !u.is_blocked })
          (fun u => rfl) σ.users U hf
      have hs2 : (({ U with is_blocked := !U.is_blocked } : User).id == A.id)
          = false := hs
      have hdouble : updateFirst (fun u => u.id == uid)
          (fun u => { u with is_blocked := !u.is_blocked })
          (updateFirst (fun u => u.id == uid)
            (fun u => { u with is_blocked := !u.is_blocked }) σ.users)
          = σ.users :=
        updateFirst_updateFirst (fun u => u.id == uid)
          (fun u => { u with is_blocked := !u.is_blocked }) (fun u => rfl)
          (fun u => by cases u; simp) σ.users
      simp [block_user, hg2, ha, hfid2, hs2, hdouble]
  · intro h
    obtain ⟨A, U, hg, ha, hf, hs, hr, hσ'⟩ :=
      toggle_admin_cookie_inv token uid σ σ' r h
    subst hσ'
    subst hr
    have hUid : U.id = uid := by simpa using List.find?_some hf
    obtain ⟨k, hk, hk', hget, hget', hframe⟩ :=
      updateFirst_frame (fun u => u.id == uid)
        (fun u => { u with is_admin := !u.is_admin }) σ.users U hf
    refine ⟨⟨k, hk, hk', ?_, ?_, hframe⟩, ?_⟩
    · rw [hget]; exact hUid
    · rw [hget', hget]
    · obtain ⟨t, sub, ht, hd, hfind, hblocked⟩ :=
        get_current_user_inv token σ A hg
      subst ht
      have hA2 : (A.id == uid) = false := by
        have hAU : U.id ≠ A.id := by simpa using hs
        rw [beq_eq_false_iff_ne]
        intro hc
        exact hAU (by rw [hUid, hc])
      have hfind2 : (updateFirst (fun u => u.id == uid)
          (fun u => { u with is_admin := !u.is_admin }) σ.users).find?
            (fun u => u.username == sub) = some A :=
        find?_updateFirst_stable (fun u => u.id == uid)
          (fun u => u.username == sub)
          (fun u => { u with is_admin := !u.is_admin })
          (fun u => rfl) σ.users A hfind hA2
      have hg2 : get_current_user (some t)
          ⟨updateFirst (fun u => u.id == uid)
            (fun u => { u with is_admin := !u.is_admin }) σ.users,
           σ.next_id⟩ = .ok A :=
        get_current_user_eq_ok t sub _ A hd hfind2 hblocked
      have hfid2 : (updateFirst (fun u => u.id == uid)
          (fun u => { u with is_admin := !u.is_admin }) σ.users).find?
            (fun u => u.id == uid) =
          some { U with is_admin := !U.is_admin } :=
        find?_updateFirst_self (fun u => u.id == uid)
          (fun u => { u with is_admin := !u.is_admin })
          (fun u => rfl) σ.users U hf
      have hs2 : (({ U with is_admin := !U.is_admin } : User).id == A.id)
          = false := hs
      have hdouble : updateFirst (fun u => u.id == uid)
          (fun u => { u with is_admin := !u.is_admin })
          (updateFirst (fun u => u.id == uid)
            (fun u => { u with is_admin := !u.is_admin }) σ.users)
          = σ.users :=
        updateFirst_updateFirst (fun u => u.id == uid)
          (fun u => { u with is_admin := !u.is_admin }) (fun u => rfl)
          (fun u => by cases u; simp) σ.users
      simp [toggle_admin_cookie, hg2, ha, hfid2, hs2, hdouble]

/-- Witness for C10 at a concrete store: after the admin alice blocks bob
(respectively grants bob admin rights), running the same toggle again
succeeds and restores the original store. -/
theorem toggle_involution_witness :
    block_user (some (RawToken.valid "alice")) 2
        ⟨[⟨1, "alice", "a", true, false⟩, ⟨2, "bob", "b", false, true⟩], 3⟩ =
      (⟨[⟨1, "alice", "a", true, false⟩, ⟨2, "bob", "b", false, false⟩], 3⟩,
        .ok "/admin") ∧
    toggle_admin_cookie (some (RawToken.valid "alice")) 2
        ⟨[⟨1, "alice", "a", true, false⟩, ⟨2, "bob", "b", true, false⟩], 3⟩ =
      (⟨[⟨1, "alice", "a", true, false⟩, ⟨2, "bob", "b", false, false⟩], 3⟩,
        .ok "/admin") :=
  ⟨((toggle_involution (some (RawToken.valid "alice")) 2
      ⟨[⟨1, "alice", "a", true, false⟩, ⟨2, "bob", "b", false, false⟩], 3⟩
      ⟨[⟨1, "alice", "a", true, false⟩, ⟨2, "bob", "b", false, true⟩], 3⟩
      "/admin").1 (by rfl)).2,
   ((toggle_involution (some (RawToken.valid "alice")) 2
      ⟨[⟨1, "alice", "a", true, false⟩, ⟨2, "bob", "b", false, false⟩], 3⟩
      ⟨[⟨1, "alice", "a", true, false⟩, ⟨2, "bob", "b", true, false⟩], 3⟩
      "/admin").2 (by rfl)).2⟩
